import Mathlib

/-!
Verification of the BitTorrent client core against its specification.

Shallow embedding of the Rust sources:
  src/src/peer/types.rs        (wire codec, bitfield, handshake)
  src/src/peer/connection.rs   (PeerConnection: ready loop, block/piece requests)
  src/src/piece_saver/worker/types.rs  (verifier / persister worker)
  src/src/piece_saver/sender/types.rs  (channel sender facade)
  src/src/piece_manager/types.rs       (scheduler construction)

Bytes are modelled as `Nat` (values < 256 where produced by the code),
byte strings as `List Nat`, machine arithmetic with explicit `% 2^w`
where it matters, fallible code with `Except`/`Option`.  Rust panics
(`unwrap`, index out of bounds, u32 underflow in debug builds) are
modelled as distinguished error values.
-/

namespace Spec2Proof

/-! ## Wire codec — src/src/peer/types.rs -/

/-- `enum PeerMessageId` (peer/types.rs lines 57-69). -/
inductive PeerMessageId where
  | Choke
  | Unchoke
  | Interested
  | NotInterested
  | Have
  | Bitfield
  | Request
  | Piece
  | Cancel
  | Port
deriving DecidableEq, Repr

/-- `PeerMessageId::from_u8` (peer/types.rs lines 72-86); the `Err(String)`
case is modelled as `none`. -/
def PeerMessageId.from_u8 (id : Nat) : Option PeerMessageId :=
  match id with
  | 0 => some .Choke
  | 1 => some .Unchoke
  | 2 => some .Interested
  | 3 => some .NotInterested
  | 4 => some .Have
  | 5 => some .Bitfield
  | 6 => some .Request
  | 7 => some .Piece
  | 8 => some .Cancel
  | 9 => some .Port
  | _ => none

/-- The Rust cast `message.id as u8`: the discriminant of the variant. -/
def PeerMessageId.to_u8 : PeerMessageId → Nat
  | .Choke => 0
  | .Unchoke => 1
  | .Interested => 2
  | .NotInterested => 3
  | .Have => 4
  | .Bitfield => 5
  | .Request => 6
  | .Piece => 7
  | .Cancel => 8
  | .Port => 9

/-- `struct PeerMessage` (peer/types.rs lines 90-95); `length` is a `u32`. -/
structure PeerMessage where
  id : PeerMessageId
  length : Nat
  payload : List Nat
deriving DecidableEq, Repr

/-- `PeerMessage::u32_to_vec_be` (peer/types.rs lines 116-123):
big-endian bytes of a `u32`; `(num >> k) as u8` is `num / 2^k % 256`. -/
def u32_to_vec_be (num : Nat) : List Nat :=
  [num / 2 ^ 24 % 256, num / 2 ^ 16 % 256, num / 2 ^ 8 % 256, num % 256]

/-- `u32::from_be_bytes` applied to four (already `u8`) bytes. -/
def u32_from_be_bytes (b0 b1 b2 b3 : Nat) : Nat :=
  b0 * 2 ^ 24 + b1 * 2 ^ 16 + b2 * 2 ^ 8 + b3

/-- `PeerMessage::unchoke` (peer/types.rs lines 98-105). -/
def PeerMessage.unchoke : PeerMessage :=
  { id := .Unchoke, length := 1, payload := [] }

/-- `PeerMessage::interested` (peer/types.rs lines 106-113). -/
def PeerMessage.interested : PeerMessage :=
  { id := .Interested, length := 1, payload := [] }

/-- `PeerMessage::request` (peer/types.rs lines 125-137). -/
def PeerMessage.request (index begin_ lenght : Nat) : PeerMessage :=
  let payload := u32_to_vec_be index ++ u32_to_vec_be begin_ ++ u32_to_vec_be lenght
  { id := .Request, length := payload.length + 1, payload := payload }

/-- `PeerMessage::piece` (peer/types.rs lines 139-150). -/
def PeerMessage.piece (piece_index offset : Nat) (block : List Nat) : PeerMessage :=
  let payload := u32_to_vec_be piece_index ++ u32_to_vec_be offset ++ block
  { id := .Piece, length := payload.length + 1, payload := payload }

/-- `PeerMessage::keep_alive` (peer/types.rs lines 152-158): length field 0,
id field `Choke` (the id is not meant to appear on the wire). -/
def PeerMessage.keep_alive : PeerMessage :=
  { id := .Choke, length := 0, payload := [] }

/-- Faults of the byte-level stream functions.  `panicReadExact` models
`read_exact(..).unwrap()` failing (the stream ends too early);
`panicLengthUnderflow` models the `u32` computation `message_length - 1`
underflowing when `message_length == 0` (a panic in debug builds; in release
it wraps and the subsequent 4 GiB `read_exact` fails its `unwrap`). -/
inductive WireError where
  | panicReadExact
  | panicLengthUnderflow
  | invalidMessageId
deriving DecidableEq, Repr

/-- `PeerMessageStream::wait_for_message` (peer/types.rs lines 183-199) over
an explicit inbound byte stream.  Faithful to the source order: it reads a
4-byte big-endian length, then unconditionally reads one id byte, then
allocates/reads `message_length - 1` payload bytes (underflow when the
length is 0), and finally validates the id with `from_u8`.  Returns the
decoded message and the unconsumed remainder of the stream. -/
def wait_for_message : List Nat → Except WireError (PeerMessage × List Nat)
  | b0 :: b1 :: b2 :: b3 :: rest =>
    let message_length := u32_from_be_bytes b0 b1 b2 b3
    match rest with
    | [] => .error .panicReadExact
    | idByte :: rest2 =>
      if message_length = 0 then .error .panicLengthUnderflow
      else if message_length - 1 ≤ rest2.length then
        match PeerMessageId.from_u8 idByte with
        | some mid =>
          .ok ({ id := mid, length := message_length,
                 payload := rest2.take (message_length - 1) },
               rest2.drop (message_length - 1))
        | none => .error .invalidMessageId
      else .error .panicReadExact
  | _ => .error .panicReadExact

/-- `PeerMessageStream::send_message` (peer/types.rs lines 215-223): the
bytes written to the stream — the stored `length` field as 4 big-endian
bytes, the id byte, then the payload. -/
def send_message (message : PeerMessage) : List Nat :=
  u32_to_vec_be message.length ++ [message.id.to_u8] ++ message.payload

/-! ## Bitfield — src/src/peer/types.rs lines 12-48 -/

/-- `Bitfield::has_piece` (peer/types.rs lines 29-36) on the underlying byte
vector: `(self.0[byte_index] >> (7 - offset) & 1) != 0`, with a bounds
check returning `false` first. -/
def has_piece (v : List Nat) (index : Nat) : Bool :=
  let byte_index := index / 8
  let offset := index % 8
  if v.length ≤ byte_index then false
  else ((v.getD byte_index 0) >>> (7 - offset)) &&& 1 != 0

/-- `Bitfield::non_empty` (peer/types.rs lines 20-22). -/
def bitfield_non_empty (v : List Nat) : Bool :=
  !v.isEmpty

/-- Modelled from the spec: `Bitfield::is_empty` (used by
`PeerConnection::wait_until_ready`) is not among the sources; §3 of the
spec defines: a bitfield is empty when the vector has zero length. -/
def bitfield_is_empty (v : List Nat) : Bool :=
  v.isEmpty

/-! ## Handshake — src/src/peer/types.rs lines 171-213 -/

/-- The bytes of the string literal `"BitTorrent protocol"`. -/
def pstr_bytes : List Nat :=
  [66, 105, 116, 84, 111, 114, 114, 101, 110, 116, 32,
   112, 114, 111, 116, 111, 99, 111, 108]

/-- `PeerMessageStream::create_handshake_message` (peer/types.rs lines
171-179): `[PSTRLEN] ++ "BitTorrent protocol" ++ 8 zero bytes ++ info_hash
++ peer_id`. -/
def create_handshake_message (info_hash peer_id : List Nat) : List Nat :=
  [19] ++ pstr_bytes ++ List.replicate 8 0 ++ info_hash ++ peer_id

/-- `PeerMessageStream::handshake` (peer/types.rs lines 201-213) over an
explicit inbound byte stream: writes the handshake message, reads exactly
68 response bytes (panicking if the stream is shorter), and returns `Ok`.
The source performs no check at all on the 68 response bytes (it carries a
TODO noting the missing verification); accordingly the model returns the
bytes written and the remaining stream, ignoring the response content. -/
def handshake (info_hash peer_id : List Nat) (stream : List Nat) :
    Except WireError (List Nat × List Nat) :=
  if 68 ≤ stream.length then
    .ok (create_handshake_message info_hash peer_id, stream.drop 68)
  else .error .panicReadExact

/-! ## PeerConnection — src/src/peer/connection.rs

The `IClientPeerMessageService` trait object is modelled as a script: a
list of inbound `PeerMessage`s the peer will deliver, consumed in order,
plus the list of messages the client has sent. -/

/-- The mutable `PeerConnection` fields touched by the modelled methods:
`peer_choking` (initially `true`) and `bitfield` (initially empty), see
connection.rs lines 33-45. -/
structure ConnState where
  peer_choking : Bool
  bitfield : List Nat
deriving DecidableEq, Repr

/-- The initial connection state built by `PeerConnection::new`
(connection.rs lines 26-46). -/
def ConnState.init : ConnState :=
  { peer_choking := true, bitfield := [] }

/-- The two message-service faults surfaced by
`PeerConnection::wait_for_message` (connection.rs lines 58-74):
an error from the underlying service (modelled as the script running dry)
or an inbound message with an unhandled id. -/
inductive IPeerMessageServiceError where
  | ReceivingMessageError
  | UnhandledMessage
deriving DecidableEq, Repr

/-- The state update `PeerConnection::wait_for_message` performs on one
inbound message (connection.rs lines 60-72): Unchoke clears
`peer_choking`, Bitfield stores the payload via `Bitfield::set_bitfield`,
Have and Piece change nothing, every other id is an `UnhandledMessage`
error. -/
def wait_for_message_step (c : ConnState) (msg : PeerMessage) :
    Except IPeerMessageServiceError ConnState :=
  match msg.id with
  | .Unchoke => .ok { c with peer_choking := false }
  | .Bitfield => .ok { c with bitfield := msg.payload }
  | .Have => .ok c
  | .Piece => .ok c
  | _ => .error .UnhandledMessage

/-- `PeerConnection::wait_for_message` (connection.rs lines 58-74) against
the scripted inbound message list: consumes the head of the script. -/
def conn_wait_for_message (c : ConnState) (inbound : List PeerMessage) :
    Except IPeerMessageServiceError (PeerMessage × ConnState × List PeerMessage) :=
  match inbound with
  | [] => .error .ReceivingMessageError
  | msg :: rest =>
    match wait_for_message_step c msg with
    | .ok c2 => .ok (msg, c2, rest)
    | .error e => .error e

/-- `PeerConnection::wait_until_ready` (connection.rs lines 76-85):
`loop { self.wait_for_message()?; if self.peer_choking &&
self.bitfield.is_empty() { break; } } Ok(())`.  Note the break condition
is literally `peer_choking && bitfield.is_empty()`. -/
def wait_until_ready (c : ConnState) :
    List PeerMessage → Except IPeerMessageServiceError (ConnState × List PeerMessage)
  | [] => .error .ReceivingMessageError
  | msg :: rest =>
    match wait_for_message_step c msg with
    | .error e => .error e
    | .ok c2 =>
      if c2.peer_choking && bitfield_is_empty c2.bitfield then .ok (c2, rest)
      else wait_until_ready c2 rest

/-! ## Metainfo (crate::metainfo, consumed by connection.rs) -/

/-- The `Info` struct as used by the sources (piece_length, the SHA-1
digest list, total length, name). -/
structure Info where
  piece_length : Nat
  pieces : List (List Nat)
  length : Nat
  name : String
deriving DecidableEq, Repr

/-- The `Metainfo` struct as used by the sources. -/
structure Metainfo where
  announce : String
  info : Info
  info_hash : List Nat
deriving DecidableEq, Repr

/-- `PeerConnectionError::PieceRequestingError(String)`
(peer/errors.rs, reconstructed from its uses in connection.rs). -/
inductive PeerConnectionError where
  | PieceRequestingError (msg : String)
deriving DecidableEq, Repr

def failedWaitingMsg : String := "Failed while waiting for message"
def invalidBlockMsg : String := "Invalid block received"
def invalidPieceMsg : String := "Invalid piece received"

/-- Modelled from the spec: `valid_block` lives in src/src/peer/utils.rs,
which is absent from the sources.  §4.2: "Reject and fail if the piece
payload's leading 8 bytes do not match (`index`, `offset`)" — the first
four payload bytes are the big-endian piece index and the next four the
big-endian offset. -/
def valid_block (payload : List Nat) (index begin_ : Nat) : Bool :=
  payload.take 4 == u32_to_vec_be index && (payload.drop 4).take 4 == u32_to_vec_be begin_

/-- Modelled from the spec: `valid_piece` lives in src/src/peer/utils.rs,
which is absent from the sources.  Per the comment on
`PeerConnection::request_piece` ("we verify its sha1 hash, and return the
piece if it is valid") and §4.4/§8 of the spec, it compares the SHA-1 of
the assembled piece with the digest `H[piece_index]` from the metainfo.
SHA-1 itself is an external library; it is passed in as the function
`h`. -/
def valid_piece (h : List Nat → List Nat) (piece : List Nat) (piece_index : Nat)
    (metainfo : Metainfo) : Bool :=
  h piece == metainfo.info.pieces.getD piece_index []

/-- The loop inside `PeerConnection::request_block` (connection.rs lines
100-121): wait for messages (updating the connection state) until a
`Piece` message arrives; then the block is `payload[8..]` when
`valid_block` accepts it and an `InvalidBlock` failure otherwise.  Any
`wait_for_message` error becomes the `"Failed while waiting for message"`
failure. -/
def request_block_loop (c : ConnState) (index begin_ : Nat) :
    List PeerMessage → Except PeerConnectionError (List Nat × ConnState × List PeerMessage)
  | [] => .error (.PieceRequestingError failedWaitingMsg)
  | msg :: rest =>
    match wait_for_message_step c msg with
    | .error _ => .error (.PieceRequestingError failedWaitingMsg)
    | .ok c2 =>
      if msg.id = PeerMessageId.Piece then
        if valid_block msg.payload index begin_ then
          .ok (msg.payload.drop 8, c2, rest)
        else .error (.PieceRequestingError invalidBlockMsg)
      else request_block_loop c2 index begin_ rest

/-- The duplex wire of a scripted message service: the inbound messages
still to be delivered and the messages the client has sent so far. -/
structure Wire where
  inbound : List PeerMessage
  sent : List PeerMessage
deriving DecidableEq, Repr

/-- `PeerConnection::request_block` (connection.rs lines 90-122): send
`PeerMessage::request(index, begin, lenght)` and run the receive loop. -/
def request_block (c : ConnState) (w : Wire) (index begin_ lenght : Nat) :
    Except PeerConnectionError (List Nat × ConnState × Wire) :=
  let sent2 := w.sent ++ [PeerMessage.request index begin_ lenght]
  match request_block_loop c index begin_ w.inbound with
  | .ok (block, c2, rest) => .ok (block, c2, { inbound := rest, sent := sent2 })
  | .error e => .error e

/-- The loop inside `PeerConnection::request_piece` (connection.rs lines
135-149): request the next block at offset `counter` with requested
length `block_size`, append it to the accumulated piece, advance
`counter` by `block_size`, and once `counter >= piece_length` run the
`valid_piece` SHA-1 check, succeeding with the assembled piece or failing
with `"Invalid piece received"`.  The `fuel` argument bounds the number
of iterations so the recursion is structural; `none` marks fuel
exhaustion, which `request_piece_loop_fuel_sufficient` below shows is
unreachable for the fuel used by `request_piece` (every iteration
consumes at least one inbound message). -/
def request_piece_loop (h : List Nat → List Nat) (metainfo : Metainfo)
    (piece_index block_size : Nat) :
    Nat → Nat → List Nat → ConnState → Wire →
    Option (Except PeerConnectionError (List Nat × ConnState × Wire))
  | 0, _, _, _, _ => none
  | fuel + 1, counter, piece, c, w =>
    match request_block c w piece_index counter block_size with
    | .error e => some (.error e)
    | .ok (block, c2, w2) =>
      let piece2 := piece ++ block
      let counter2 := counter + block_size
      if metainfo.info.piece_length ≤ counter2 then
        if valid_piece h piece2 piece_index metainfo then some (.ok (piece2, c2, w2))
        else some (.error (.PieceRequestingError invalidPieceMsg))
      else
        request_piece_loop h metainfo piece_index block_size fuel counter2 piece2 c2 w2

/-- `PeerConnection::request_piece` (connection.rs lines 127-150): run the
block loop starting from `counter = 0` with an empty accumulated piece.
The fuel `w.inbound.length + 1` is always sufficient
(`request_piece_total`). -/
def request_piece (h : List Nat → List Nat) (metainfo : Metainfo)
    (piece_index block_size : Nat) (c : ConnState) (w : Wire) :
    Option (Except PeerConnectionError (List Nat × ConnState × Wire)) :=
  request_piece_loop h metainfo piece_index block_size (w.inbound.length + 1) 0 [] c w

/-! ## Scheduler messages — src/src/piece_manager/types.rs lines 13-22 -/

/-- `type PeerId = Vec<u8>` -/
abbrev PeerId := List Nat

/-- `type PieceId = u32` -/
abbrev PieceId := Nat

/-- `enum PieceManagerMessage` (piece_manager/types.rs lines 13-22); the
`Bitfield` payload is its underlying byte vector. -/
inductive PieceManagerMessage where
  | PeerPieces (peer : PeerId) (bitfield : List Nat)
  | SuccessfulDownload (piece : PieceId) (peer : PeerId)
  | FailedDownload (piece : PieceId) (peer : PeerId)
  | FailedConnection (peer : PeerId)
  | Have (peer : PeerId) (piece : PieceId)
  | ReaskedTracker
  | FinishedEstablishingConnections (n : Nat)
deriving DecidableEq, Repr

/-! ## Verifier / persister worker — src/src/piece_saver/worker/types.rs -/

/-- `enum PieceSaverMessage` (piece_saver/types.rs, reconstructed from its
two uses in worker and sender): `StopSaving` and
`ValidateAndSavePiece(u32, Vec<u8>)`.  Note the message carries no peer
identifier. -/
inductive PieceSaverMessage where
  | StopSaving
  | ValidateAndSavePiece (piece_index : Nat) (piece_bytes : List Nat)
deriving DecidableEq, Repr

/-- The `PieceSaverWorker` fields the modelled methods read
(worker/types.rs lines 10-15); the receiver and the (never used)
`piece_manager_sender` are modelled as effects below. -/
structure PieceSaverWorker where
  sha1_pieces : List (List Nat)
  download_path : String
deriving DecidableEq, Repr

/-- A UI progress event (`UIMessageSender`); the worker never emits one,
the constructor is listed for completeness of the effect record. -/
inductive UIEvent where
  | DownloadedPiece (piece_index : Nat)
deriving DecidableEq, Repr

/-- The observable effects of one `make_validation_and_save_piece` call:
disk writes performed through `save_piece_in_disk` (as `(piece_number,
data)` pairs), messages sent to the piece manager (scheduler), and UI
events. -/
structure SaveEffects where
  disk_writes : List (Nat × List Nat)
  scheduler_events : List PieceManagerMessage
  ui_events : List UIEvent
deriving DecidableEq, Repr

/-- `PieceSaverWorker::valid_piece` (worker/types.rs lines 24-28):
`sha1_of(piece_bytes) == sha1_pieces[piece_index]`.  The index panics
when out of bounds; callers guard it (modelled at the call site).  SHA-1
is the external `sha1` crate, passed in as `h`. -/
def worker_valid_piece (h : List Nat → List Nat) (worker : PieceSaverWorker)
    (piece_bytes : List Nat) (piece_index : Nat) : Bool :=
  h piece_bytes == worker.sha1_pieces.getD piece_index []

/-- `PieceSaverWorker::make_validation_and_save_piece` (worker/types.rs
lines 30-38): when `valid_piece` accepts, build the `Piece` and call
`save_piece_in_disk(..).unwrap()` (`save_piece_in_disk` is in the absent
download_manager module; modelled from the spec as the write of the piece
bytes for that piece number); when it rejects, do nothing.  In neither
case is any message sent to the piece manager or to the UI.  `none`
models the panic of the out-of-bounds `sha1_pieces[piece_index]` index
inside `valid_piece`. -/
def make_validation_and_save_piece (h : List Nat → List Nat)
    (worker : PieceSaverWorker) (piece_index : Nat) (piece_bytes : List Nat) :
    Option SaveEffects :=
  if worker.sha1_pieces.length ≤ piece_index then none
  else if worker_valid_piece h worker piece_bytes piece_index then
    some { disk_writes := [(piece_index, piece_bytes)],
           scheduler_events := [], ui_events := [] }
  else
    some { disk_writes := [], scheduler_events := [], ui_events := [] }

/-- Sequential composition of effect records. -/
def SaveEffects.append (a b : SaveEffects) : SaveEffects :=
  { disk_writes := a.disk_writes ++ b.disk_writes,
    scheduler_events := a.scheduler_events ++ b.scheduler_events,
    ui_events := a.ui_events ++ b.ui_events }

/-- `PieceSaverWorker::listen` (worker/types.rs lines 40-55) over the
finite list of messages the channel will deliver: process messages in
order, stopping at `StopSaving`; a drained script models the
channel-closed `RecvError`.  Returns the accumulated effects and whether
the loop ended via `StopSaving` (`true`) or `RecvError` (`false`). -/
def listen (h : List Nat → List Nat) (worker : PieceSaverWorker) :
    List PieceSaverMessage → Option (SaveEffects × Bool)
  | [] => some ({ disk_writes := [], scheduler_events := [], ui_events := [] }, false)
  | .StopSaving :: _ => some ({ disk_writes := [], scheduler_events := [], ui_events := [] }, true)
  | .ValidateAndSavePiece piece_index piece_bytes :: rest =>
    match make_validation_and_save_piece h worker piece_index piece_bytes with
    | none => none
    | some eff =>
      match listen h worker rest with
      | none => none
      | some (eff2, stopped) => some (eff.append eff2, stopped)

/-! ## Piece saver sender — src/src/piece_saver/sender/types.rs -/

/-- The state of the `std::sync::mpsc` channel behind `PieceSaverSender`:
whether the receiving end is still alive and the queued messages. -/
structure MpscChannel where
  receiver_alive : Bool
  queue : List PieceSaverMessage
deriving DecidableEq, Repr

/-- `SendError`: `Sender::send` fails exactly when the receiver has been
dropped. -/
inductive SendError where
  | disconnected
deriving DecidableEq, Repr

/-- `std::sync::mpsc::Sender::send`: enqueue when the receiver is alive,
fail with `SendError` otherwise. -/
def mpsc_send (ch : MpscChannel) (msg : PieceSaverMessage) :
    Except SendError MpscChannel :=
  if ch.receiver_alive then .ok { ch with queue := ch.queue ++ [msg] }
  else .error .disconnected

/-- The Rust `let _ = expr;` pattern: the `Result` is discarded, never
unwrapped, so a send failure leaves the channel unchanged and raises
nothing. -/
def discard_send_result (r : Except SendError MpscChannel) (unchanged : MpscChannel) :
    MpscChannel :=
  match r with
  | .ok ch2 => ch2
  | .error _ => unchanged

/-- Panics a sender method could raise; the modelled methods raise none
(they use `let _ =`, not `.unwrap()`). -/
inductive RustPanic where
  | panic
deriving DecidableEq, Repr

/-- `PieceSaverSender::stop_saving` (sender/types.rs lines 10-12):
`let _ = self.sender.send(PieceSaverMessage::StopSaving);`. -/
def stop_saving (ch : MpscChannel) : Except RustPanic MpscChannel :=
  .ok (discard_send_result (mpsc_send ch .StopSaving) ch)

/-- `PieceSaverSender::validate_and_save_piece` (sender/types.rs lines
14-19): `let _ = self.sender.send(ValidateAndSavePiece(piece_index,
piece_bytes));`. -/
def validate_and_save_piece (ch : MpscChannel) (piece_index : Nat)
    (piece_bytes : List Nat) : Except RustPanic MpscChannel :=
  .ok (discard_send_result
        (mpsc_send ch (.ValidateAndSavePiece piece_index piece_bytes)) ch)

/-! ## Scheduler construction — src/src/piece_manager/types.rs lines 24-63 -/

/-- The `PieceManagerWorker` fields initialised by `new_piece_manager`
(piece_manager/types.rs lines 47-62).  The `HashMap`/`HashSet`
collections are modelled as association/element lists built in the
constructor's insertion order 0..number_of_pieces; only membership is
observable. -/
structure PieceManagerWorkerState where
  allowed_peers_to_download_piece : List (PieceId × List PeerId)
  is_downloading : Bool
  piece_asked_to : List (PeerId × PieceId)
  pieces_without_peer : List PieceId
  ready_to_download_pieces : List PieceId
  peer_pieces_to_download_count : List (PeerId × Nat)
  recieved_bitfields : Nat
  established_connections : Nat
  is_asking_tracker : Bool
deriving DecidableEq, Repr

/-- `new_piece_manager` (piece_manager/types.rs lines 24-63): the
`peers_per_piece` map gets an empty peer vector for every piece index
below `number_of_pieces` not contained in `initial_pieces`; the
`remaining_pieces` set (stored as `ready_to_download_pieces`) gets
exactly those same indices; `pieces_without_peer` starts empty.  The
channel endpoints and the UI sender are communication handles, not
state, and are omitted. -/
def new_piece_manager (number_of_pieces : Nat) (initial_pieces : List Nat) :
    PieceManagerWorkerState :=
  let wanted := (List.range number_of_pieces).filter
    (fun i => !initial_pieces.contains i)
  { allowed_peers_to_download_piece := wanted.map (fun i => (i, [])),
    is_downloading := false,
    piece_asked_to := [],
    pieces_without_peer := [],
    ready_to_download_pieces := wanted,
    peer_pieces_to_download_count := [],
    recieved_bitfields := 0,
    established_connections := 0,
    is_asking_tracker := false }

/-! ## Concrete fixtures

A download in the shape of the repository's own test
(`gets_real_piece`, connection.rs lines 212-252): a piece downloaded in
blocks of 2 bytes, except that here `piece_length = 3` is not a multiple
of the block size. -/

/-- Fixture metainfo: `piece_length = 3`, one expected digest `[]`
(matching the fixture hash function `fun _ => []`). -/
def exMetainfo : Metainfo :=
  { announce := "",
    info := { piece_length := 3, pieces := [[]], length := 3, name := "" },
    info_hash := [] }

/-- Fixture metainfo identical to `exMetainfo` except for the expected
digest of piece 0. -/
def exMetainfo2 : Metainfo :=
  { announce := "",
    info := { piece_length := 3, pieces := [[7]], length := 3, name := "" },
    info_hash := [] }

/-- Fixture inbound script: the peer answers each request with a 2-byte
block of piece 0, at offsets 0 and 2. -/
def exScript : List PeerMessage :=
  [PeerMessage.piece 0 0 [10, 11], PeerMessage.piece 0 2 [12, 13]]

/-! # Theorems -/

/-! ## Supporting lemmas -/

/-- A successful `request_block_loop` consumes at least one inbound
message. -/
theorem request_block_loop_shrinks (index begin_ : Nat) :
    ∀ (inbound : List PeerMessage) (c : ConnState) (block : List Nat)
      (c2 : ConnState) (rest : List PeerMessage),
      request_block_loop c index begin_ inbound = .ok (block, c2, rest) →
      rest.length < inbound.length := by
  intro inbound
  induction inbound with
  | nil => intro c block c2 rest h; simp [request_block_loop] at h
  | cons msg tail ih =>
    intro c block c2 rest h
    rw [request_block_loop] at h
    cases hstep : wait_for_message_step c msg with
    | error e => rw [hstep] at h; simp at h
    | ok c3 =>
      rw [hstep] at h
      simp only at h
      by_cases hid : msg.id = PeerMessageId.Piece
      · rw [if_pos hid] at h
        by_cases hvb : valid_block msg.payload index begin_
        · rw [if_pos hvb] at h
          simp only [Except.ok.injEq, Prod.mk.injEq] at h
          obtain ⟨-, -, hrest⟩ := h
          subst hrest
          simp
        · rw [if_neg hvb] at h; simp at h
      · rw [if_neg hid] at h
        have := ih c3 block c2 rest h
        simpa using Nat.lt_succ_of_lt this

/-- A successful `request_block` consumes at least one inbound message. -/
theorem request_block_shrinks (c : ConnState) (w : Wire) (index begin_ lenght : Nat)
    (block : List Nat) (c2 : ConnState) (w2 : Wire)
    (h : request_block c w index begin_ lenght = .ok (block, c2, w2)) :
    w2.inbound.length < w.inbound.length := by
  rw [request_block] at h
  cases hloop : request_block_loop c index begin_ w.inbound with
  | error e => rw [hloop] at h; simp at h
  | ok r =>
    obtain ⟨b, c3, rest⟩ := r
    rw [hloop] at h
    simp only [Except.ok.injEq, Prod.mk.injEq] at h
    obtain ⟨-, -, hw⟩ := h
    subst hw
    exact request_block_loop_shrinks index begin_ w.inbound c b c3 rest hloop

/-- A successful `request_block` appends exactly the one `Request` message
it sent to the wire. -/
theorem request_block_ok_sent (c : ConnState) (w : Wire) (index begin_ lenght : Nat)
    (block : List Nat) (c2 : ConnState) (w2 : Wire)
    (h : request_block c w index begin_ lenght = .ok (block, c2, w2)) :
    w2.sent = w.sent ++ [PeerMessage.request index begin_ lenght] := by
  rw [request_block] at h
  cases hloop : request_block_loop c index begin_ w.inbound with
  | error e => rw [hloop] at h; simp at h
  | ok r =>
    obtain ⟨b, c3, rest⟩ := r
    rw [hloop] at h
    simp only [Except.ok.injEq, Prod.mk.injEq] at h
    obtain ⟨-, -, hw⟩ := h
    subst hw
    rfl

/-- Fuel exhaustion is unreachable: with more fuel than inbound messages,
`request_piece_loop` always yields a result. -/
theorem request_piece_loop_fuel_sufficient (h : List Nat → List Nat)
    (metainfo : Metainfo) (piece_index block_size : Nat) :
    ∀ (fuel counter : Nat) (piece : List Nat) (c : ConnState) (w : Wire),
      w.inbound.length < fuel →
      request_piece_loop h metainfo piece_index block_size fuel counter piece c w ≠ none := by
  intro fuel
  induction fuel with
  | zero => intro counter piece c w hlt; omega
  | succ f ih =>
    intro counter piece c w hlt
    rw [request_piece_loop]
    cases hreq : request_block c w piece_index counter block_size with
    | error e => simp
    | ok r =>
      obtain ⟨block, c2, w2⟩ := r
      have hsh := request_block_shrinks c w piece_index counter block_size block c2 w2 hreq
      simp only
      by_cases hdone : metainfo.info.piece_length ≤ counter + block_size
      · rw [if_pos hdone]
        by_cases hvp : valid_piece h (piece ++ block) piece_index metainfo
        · rw [if_pos hvp]; simp
        · rw [if_neg hvp]; simp
      · rw [if_neg hdone]
        exact ih (counter + block_size) (piece ++ block) c2 w2 (by omega)

/-- `request_piece` always yields a result (the Rust loop never runs past
the scripted inbound messages without erroring). -/
theorem request_piece_total (h : List Nat → List Nat) (metainfo : Metainfo)
    (piece_index block_size : Nat) (c : ConnState) (w : Wire) :
    request_piece h metainfo piece_index block_size c w ≠ none :=
  request_piece_loop_fuel_sufficient h metainfo piece_index block_size
    (w.inbound.length + 1) 0 [] c w (Nat.lt_succ_self _)

/-- `PeerMessageId.from_u8` inverts the `as u8` cast. -/
theorem from_u8_to_u8 (id : PeerMessageId) :
    PeerMessageId.from_u8 id.to_u8 = some id := by
  cases id <;> rfl

/-- Reading back the four big-endian bytes of a `u32` recovers it. -/
theorem u32_be_roundtrip (n : Nat) (hn : n < 2 ^ 32) :
    u32_from_be_bytes (n / 2 ^ 24 % 256) (n / 2 ^ 16 % 256) (n / 2 ^ 8 % 256) (n % 256) = n := by
  unfold u32_from_be_bytes
  have h24 : (2 : Nat) ^ 24 = 16777216 := by norm_num
  have h16 : (2 : Nat) ^ 16 = 65536 := by norm_num
  have h8 : (2 : Nat) ^ 8 = 256 := by norm_num
  have h32 : (2 : Nat) ^ 32 = 4294967296 := by norm_num
  rw [h24, h16, h8] at *
  rw [h32] at hn
  omega

/-- Anatomy of a successful `request_piece_loop` run: the wire gains
exactly the `Request` messages for offsets `counter`, `counter +
block_size`, `counter + 2·block_size`, …, each asking for exactly
`block_size` bytes, and the assembled piece passed the `valid_piece`
SHA-1 comparison. -/
theorem request_piece_loop_ok_spec (h : List Nat → List Nat) (metainfo : Metainfo)
    (piece_index block_size : Nat) :
    ∀ (fuel counter : Nat) (piece : List Nat) (c : ConnState) (w : Wire)
      (p : List Nat) (c2 : ConnState) (w2 : Wire),
      request_piece_loop h metainfo piece_index block_size fuel counter piece c w =
        some (.ok (p, c2, w2)) →
      (∃ n : Nat, 0 < n ∧
        w2.sent = w.sent ++ (List.range n).map
          (fun k => PeerMessage.request piece_index (counter + k * block_size) block_size)) ∧
      valid_piece h p piece_index metainfo = true := by
  intro fuel
  induction fuel with
  | zero => intro counter piece c w p c2 w2 hrun; simp [request_piece_loop] at hrun
  | succ f ih =>
    intro counter piece c w p c2 w2 hrun
    rw [request_piece_loop] at hrun
    cases hreq : request_block c w piece_index counter block_size with
    | error e => rw [hreq] at hrun; simp at hrun
    | ok r =>
      obtain ⟨block, c3, w3⟩ := r
      rw [hreq] at hrun
      have hsent3 := request_block_ok_sent c w piece_index counter block_size block c3 w3 hreq
      simp only at hrun
      by_cases hdone : metainfo.info.piece_length ≤ counter + block_size
      · rw [if_pos hdone] at hrun
        by_cases hvp : valid_piece h (piece ++ block) piece_index metainfo
        · rw [if_pos hvp] at hrun
          simp only [Option.some.injEq, Except.ok.injEq, Prod.mk.injEq] at hrun
          obtain ⟨hp, -, hw⟩ := hrun
          subst hw
          refine ⟨⟨1, Nat.one_pos, ?_⟩, by rw [← hp]; exact hvp⟩
          rw [hsent3]
          have h1 : List.range 1 = [0] := rfl
          rw [h1, List.map_cons, List.map_nil]
          have h0 : counter + 0 * block_size = counter := by ring
          rw [h0]
        · rw [if_neg hvp] at hrun; simp at hrun
      · rw [if_neg hdone] at hrun
        obtain ⟨⟨n, hn, hsent⟩, hvalid⟩ :=
          ih (counter + block_size) (piece ++ block) c3 w3 p c2 w2 hrun
        refine ⟨⟨n + 1, Nat.succ_pos n, ?_⟩, hvalid⟩
        rw [hsent, hsent3, List.append_assoc]
        congr 1
        rw [List.range_succ_eq_map, List.map_cons, List.map_map, List.singleton_append]
        congr 1
        · show PeerMessage.request piece_index counter block_size =
            PeerMessage.request piece_index (counter + 0 * block_size) block_size
          congr 1
          ring
        · apply List.map_congr_left
          intro a _
          show PeerMessage.request piece_index (counter + block_size + a * block_size) block_size =
            PeerMessage.request piece_index (counter + (a + 1) * block_size) block_size
          congr 1
          ring

/-! ## Claim C1 -/

/-- Claim C1, counterexample: on a SHA-1 mismatch the verifier drops the
bytes but emits nothing to the scheduler — no `FailedDownload` (it is
never told a peer id at all) — and on a match it writes to disk but emits
neither `SuccessfulDownload` nor a UI progress event. -/
theorem c1_verifier_emits_no_events_counterexample :
    make_validation_and_save_piece (fun _ => [0])
        { sha1_pieces := [[1]], download_path := "d" } 0 [] =
      some { disk_writes := [], scheduler_events := [], ui_events := [] } ∧
    make_validation_and_save_piece (fun _ => [1])
        { sha1_pieces := [[1]], download_path := "d" } 0 [5] =
      some { disk_writes := [(0, [5])], scheduler_events := [], ui_events := [] } :=
  ⟨rfl, rfl⟩

/-- Claim C1, amended: for every piece delivered to the verifier as
`(piece_index, bytes)` with an in-range index, the verifier drops the
bytes on a SHA-1 mismatch and writes them to disk on a match, and in
both cases emits no message to the scheduler and no UI event (the
`ValidateAndSavePiece` message carries no peer id, so no
`FailedDownload`/`SuccessfulDownload` attribution is even possible
here). -/
theorem c1_verifier_silent_effects (h : List Nat → List Nat)
    (worker : PieceSaverWorker) (piece_index : Nat) (piece_bytes : List Nat)
    (hidx : piece_index < worker.sha1_pieces.length) :
    ∃ eff : SaveEffects,
      make_validation_and_save_piece h worker piece_index piece_bytes = some eff ∧
      eff.scheduler_events = [] ∧ eff.ui_events = [] ∧
      eff.disk_writes =
        (if worker_valid_piece h worker piece_bytes piece_index then
          [(piece_index, piece_bytes)] else []) := by
  unfold make_validation_and_save_piece
  rw [if_neg (Nat.not_le.mpr hidx)]
  by_cases hv : worker_valid_piece h worker piece_bytes piece_index
  · rw [if_pos hv]
    exact ⟨_, rfl, rfl, rfl, by rw [if_pos hv]⟩
  · rw [if_neg hv]
    exact ⟨_, rfl, rfl, rfl, by rw [if_neg hv]⟩

/-- Claim C1 witness: the amended statement applied at a concrete matching
piece. -/
theorem c1_verifier_silent_effects_witness :
    ∃ eff : SaveEffects,
      make_validation_and_save_piece (fun _ => [1])
          { sha1_pieces := [[1]], download_path := "d" } 0 [5] = some eff ∧
      eff.scheduler_events = [] ∧ eff.ui_events = [] ∧
      eff.disk_writes =
        (if worker_valid_piece (fun _ => [1])
            { sha1_pieces := [[1]], download_path := "d" } [5] 0 then
          [(0, [5])] else []) :=
  c1_verifier_silent_effects (fun _ => [1])
    { sha1_pieces := [[1]], download_path := "d" } 0 [5] (by decide)

/-! ## Claim C2 -/

/-- Claim C2: the handshake step never verifies the echoed info_hash.  For
a client info_hash of twenty `1` bytes and a peer response of 68 zero
bytes — whose info_hash field (bytes 28..47) is twenty `0` bytes, a
mismatch — `handshake` still returns `Ok`, so no `HandshakeFailed` can
arise from an info_hash mismatch. -/
theorem c2_handshake_accepts_mismatched_info_hash :
    handshake (List.replicate 20 1) (List.replicate 20 2) (List.replicate 68 0) =
      .ok (create_handshake_message (List.replicate 20 1) (List.replicate 20 2), []) ∧
    ((List.replicate 68 0).drop 28).take 20 ≠ List.replicate 20 1 :=
  ⟨rfl, by decide⟩

/-! ## Claim C3 -/

/-- Claim C3, counterexample: immediately after `new_piece_manager 1 []`,
piece 0 sits in `ready_to_download_pieces` although its availability
vector is empty and `pieces_without_peer` (the orphan set) is empty — so
at construction time the ready set is NOT `{i | Missing ∧ availability ≠ ∅}`
(which would be empty) and a piece IS in the ready set. -/
theorem c3_initial_ready_nonempty_counterexample :
    (new_piece_manager 1 []).ready_to_download_pieces = [0] ∧
    (new_piece_manager 1 []).allowed_peers_to_download_piece = [(0, [])] ∧
    (new_piece_manager 1 []).pieces_without_peer = [] :=
  ⟨rfl, rfl, rfl⟩

/-- Claim C3, amended: at construction the scheduler puts EVERY
still-wanted piece (index below the piece count and not initially owned)
into `ready_to_download_pieces`, regardless of availability — every
availability vector starts empty — and `pieces_without_peer` starts
empty. -/
theorem c3_initial_scheduler_state (number_of_pieces : Nat)
    (initial_pieces : List Nat) (i : Nat) :
    (i ∈ (new_piece_manager number_of_pieces initial_pieces).ready_to_download_pieces ↔
      i < number_of_pieces ∧ initial_pieces.contains i = false) ∧
    (new_piece_manager number_of_pieces initial_pieces).pieces_without_peer = [] ∧
    (new_piece_manager number_of_pieces initial_pieces).allowed_peers_to_download_piece =
      (new_piece_manager number_of_pieces initial_pieces).ready_to_download_pieces.map
        (fun j => (j, [])) := by
  refine ⟨?_, rfl, rfl⟩
  unfold new_piece_manager
  simp [List.mem_filter, List.mem_range]

/-! ## Claim C4 -/

/-- Claim C4: the decoder is NOT total on the length-0 (keep-alive) input.
On the exact four bytes `[0,0,0,0]` it tries to read a fifth (id) byte
and panics at end of stream; with a fifth byte present it computes
`message_length - 1 = 0 - 1` on a `u32`, the underflow the claim says
never happens.  It never yields a keep-alive. -/
theorem c4_decoder_panics_on_keep_alive :
    wait_for_message [0, 0, 0, 0] = .error .panicReadExact ∧
    wait_for_message [0, 0, 0, 0, 0] = .error .panicLengthUnderflow :=
  ⟨rfl, rfl⟩

/-! ## Claim C5 -/

/-- Claim C5, counterexample: with `piece_length = 3` and block size 2
(not a divisor), a successful `request_piece` run requests as its LAST
block a full 2-byte block at offset 2 — not `3 mod 2 = 1` byte — and it
returns `Ok` although the concatenated piece has length 4 ≠ 3, with no
`InvalidPiece` length failure (the run fails only via the SHA-1
comparison, which the fixture hash passes). -/
theorem c5_last_block_not_truncated_counterexample :
    request_piece (fun _ => []) exMetainfo 0 2 ConnState.init
        { inbound := exScript, sent := [] } =
      some (.ok ([10, 11, 12, 13], { peer_choking := true, bitfield := [] },
        { inbound := [],
          sent := [PeerMessage.request 0 0 2, PeerMessage.request 0 2 2] })) ∧
    exMetainfo.info.piece_length = 3 ∧
    PeerMessage.request 0 2 2 ≠ PeerMessage.request 0 2 (3 % 2) ∧
    ([10, 11, 12, 13] : List Nat).length ≠ exMetainfo.info.piece_length :=
  ⟨rfl, rfl, by decide, by decide⟩

/-- Claim C5, amended: `request_piece` takes the block size as a parameter
and requests blocks at strictly increasing offsets `0, bs, 2·bs, …`, each
request — including the one for the last block — asking for exactly
`block_size` bytes (the last block is never truncated to
`piece_length mod block_size`); the blocks are concatenated in that
order, and the only completion check is the `valid_piece` SHA-1
comparison — there is no length-mismatch (`InvalidPiece`) check. -/
theorem c5_requests_full_block_size_blocks (h : List Nat → List Nat)
    (metainfo : Metainfo) (piece_index block_size : Nat) (c : ConnState)
    (w : Wire) (p : List Nat) (c2 : ConnState) (w2 : Wire)
    (hok : request_piece h metainfo piece_index block_size c w =
      some (.ok (p, c2, w2))) :
    ∃ n : Nat, 0 < n ∧
      w2.sent = w.sent ++ (List.range n).map
        (fun k => PeerMessage.request piece_index (k * block_size) block_size) := by
  obtain ⟨⟨n, hn, hsent⟩, -⟩ :=
    request_piece_loop_ok_spec h metainfo piece_index block_size
      (w.inbound.length + 1) 0 [] c w p c2 w2 hok
  refine ⟨n, hn, ?_⟩
  rw [hsent]
  congr 1
  apply List.map_congr_left
  intro a _
  congr 1
  ring

/-- Claim C5 witness: the amended statement applied at the concrete
fixture run. -/
theorem c5_requests_full_block_size_blocks_witness :
    ∃ n : Nat, 0 < n ∧
      (({ inbound := [],
          sent := [PeerMessage.request 0 0 2, PeerMessage.request 0 2 2] } : Wire)).sent =
        (({ inbound := exScript, sent := [] } : Wire)).sent ++ (List.range n).map
          (fun k => PeerMessage.request 0 (k * 2) 2) :=
  c5_requests_full_block_size_blocks (fun _ => []) exMetainfo 0 2 ConnState.init
    { inbound := exScript, sent := [] } [10, 11, 12, 13]
    { peer_choking := true, bitfield := [] }
    { inbound := [], sent := [PeerMessage.request 0 0 2, PeerMessage.request 0 2 2] }
    rfl

/-! ## Claim C6 -/

/-- Claim C6, counterexample: two `request_piece` runs that receive
identical bytes from the peer differ in outcome solely because the
expected SHA-1 digest `H[0]` differs — with digest `[]` (matched by the
fixture hash) the run succeeds, with digest `[7]` it fails with
`"Invalid piece received"` — so `request_piece` DOES perform the
digest comparison and its success depends on it. -/
theorem c6_success_depends_on_sha1_counterexample :
    request_piece (fun _ => []) exMetainfo 0 2 ConnState.init
        { inbound := exScript, sent := [] } =
      some (.ok ([10, 11, 12, 13], { peer_choking := true, bitfield := [] },
        { inbound := [],
          sent := [PeerMessage.request 0 0 2, PeerMessage.request 0 2 2] })) ∧
    request_piece (fun _ => []) exMetainfo2 0 2 ConnState.init
        { inbound := exScript, sent := [] } =
      some (.error (.PieceRequestingError invalidPieceMsg)) ∧
    exMetainfo2.info.pieces ≠ exMetainfo.info.pieces ∧
    exMetainfo2.info.piece_length = exMetainfo.info.piece_length :=
  ⟨rfl, rfl, by decide, rfl⟩

/-- Claim C6, amended: `request_piece` returns the concatenation of the
received blocks but DOES perform the SHA-1 check on it: every successful
run satisfies the `valid_piece` comparison against `H[piece_index]`
(mismatches fail with `"Invalid piece received"`); the verifier then
re-checks on its side. -/
theorem c6_request_piece_checks_sha1 (h : List Nat → List Nat)
    (metainfo : Metainfo) (piece_index block_size : Nat) (c : ConnState)
    (w : Wire) (p : List Nat) (c2 : ConnState) (w2 : Wire)
    (hok : request_piece h metainfo piece_index block_size c w =
      some (.ok (p, c2, w2))) :
    valid_piece h p piece_index metainfo = true :=
  (request_piece_loop_ok_spec h metainfo piece_index block_size
    (w.inbound.length + 1) 0 [] c w p c2 w2 hok).2

/-- Claim C6 witness: the amended statement applied at the concrete
fixture run. -/
theorem c6_request_piece_checks_sha1_witness :
    valid_piece (fun _ => []) [10, 11, 12, 13] 0 exMetainfo = true :=
  c6_request_piece_checks_sha1 (fun _ => []) exMetainfo 0 2 ConnState.init
    { inbound := exScript, sent := [] } [10, 11, 12, 13]
    { peer_choking := true, bitfield := [] }
    { inbound := [], sent := [PeerMessage.request 0 0 2, PeerMessage.request 0 2 2] }
    rfl

/-! ## Claim C7 -/

/-- Claim C7: `wait_until_ready`'s break condition is
`peer_choking && bitfield.is_empty()` — the opposite of the claimed
readiness.  After a single `Have` message the session reports ready while
the peer is still choking and no bitfield was received; after the
claimed ready sequence Unchoke-then-Bitfield the loop can never exit
successfully (it runs until the stream fails). -/
theorem c7_ready_while_choked_and_without_bitfield :
    wait_until_ready ConnState.init
        [{ id := .Have, length := 5, payload := [0, 0, 0, 1] }] =
      .ok ({ peer_choking := true, bitfield := [] }, []) ∧
    wait_until_ready ConnState.init
        [PeerMessage.unchoke, { id := .Bitfield, length := 2, payload := [255] }] =
      .error .ReceivingMessageError :=
  ⟨rfl, rfl⟩

/-! ## Claim C8 -/

/-- Claim C8, counterexample: the encoder emits FIVE bytes
`[0,0,0,0,0]` for the keep-alive (length field 0 followed by the
unconditional id byte), not the claimed `[0,0,0,0]`, and decoding that
encoding fails (length-0 underflow) instead of returning the
keep-alive. -/
theorem c8_keep_alive_roundtrip_fails_counterexample :
    send_message PeerMessage.keep_alive = [0, 0, 0, 0, 0] ∧
    wait_for_message (send_message PeerMessage.keep_alive) =
      .error .panicLengthUnderflow :=
  ⟨rfl, rfl⟩

/-- Claim C8, amended: for every wire message whose stored length field
equals `1 + payload.len()` and fits in a `u32` — every message the
constructors build EXCEPT the keep-alive, whose length field is 0 —
decoding the encoder's output yields the message back (with any trailing
stream bytes untouched). -/
theorem c8_decode_encode_roundtrip (m : PeerMessage) (rest : List Nat)
    (hlen : m.length = m.payload.length + 1) (hfit : m.length < 2 ^ 32) :
    wait_for_message (send_message m ++ rest) = .ok (m, rest) := by
  obtain ⟨mid, mlen, mpay⟩ := m
  simp only at hlen hfit
  subst hlen
  simp only [send_message, u32_to_vec_be, List.cons_append, List.nil_append,
    List.append_assoc]
  rw [wait_for_message]
  rw [u32_be_roundtrip (mpay.length + 1) hfit]
  rw [if_neg (Nat.succ_ne_zero mpay.length)]
  have hle : mpay.length + 1 - 1 ≤ (mpay ++ rest).length := by
    simp [List.length_append]
  rw [if_pos hle]
  rw [from_u8_to_u8 mid]
  simp only [Nat.add_sub_cancel]
  rw [List.take_left, List.drop_left]

/-- Claim C8 witness: round-trip of a concrete `Request` message. -/
theorem c8_decode_encode_roundtrip_witness :
    wait_for_message (send_message (PeerMessage.request 1 2 3)) =
      .ok (PeerMessage.request 1 2 3, []) := by
  have := c8_decode_encode_roundtrip (PeerMessage.request 1 2 3) [] rfl (by decide)
  simpa using this

/-! ## Claim C9 -/

/-- Claim C9: for a bitfield over byte vector `v`, `has_piece` returns,
for `i < 8·len(v)`, exactly bit `7 - i mod 8` of byte `v[i/8]`
(most-significant-bit first), and `false` for every `i ≥ 8·len(v)`. -/
theorem c9_has_piece_spec (v : List Nat) (i : Nat) :
    (i < 8 * v.length →
      (has_piece v i = true ↔ Nat.testBit (v.getD (i / 8) 0) (7 - i % 8))) ∧
    (8 * v.length ≤ i → has_piece v i = false) := by
  constructor
  · intro hlt
    have hb : i / 8 < v.length := by omega
    unfold has_piece
    rw [if_neg (Nat.not_le.mpr hb)]
    rw [Nat.testBit_to_div_mod]
    rw [Nat.and_one_is_mod, Nat.shiftRight_eq_div_pow]
    constructor
    · intro hbne
      have := bne_iff_ne.mp hbne
      simp only [decide_eq_true_eq]
      omega
    · intro hdec
      have := decide_eq_true_eq.mp hdec
      apply bne_iff_ne.mpr
      omega
  · intro hge
    have hb : v.length ≤ i / 8 := by omega
    unfold has_piece
    rw [if_pos hb]

/-- Claim C9 witness: bit 0 of `[0x80]` is set, bit 9 is out of range. -/
theorem c9_has_piece_spec_witness :
    has_piece [128] 0 = true ∧ has_piece [128] 9 = false :=
  ⟨((c9_has_piece_spec [128] 0).1 (by decide)).mpr (by decide),
   (c9_has_piece_spec [128] 9).2 (by decide)⟩

/-! ## Claim C10 -/

/-- Claim C10: both public sender operations always return without error
or panic in every channel state; when the receiving end has been dropped
the failed `send` is silently discarded, leaving the channel unchanged. -/
theorem c10_sender_ops_never_fail (ch : MpscChannel) (piece_index : Nat)
    (piece_bytes : List Nat) :
    (validate_and_save_piece ch piece_index piece_bytes).isOk = true ∧
    (stop_saving ch).isOk = true ∧
    (ch.receiver_alive = false →
      validate_and_save_piece ch piece_index piece_bytes = .ok ch ∧
      stop_saving ch = .ok ch) := by
  refine ⟨rfl, rfl, ?_⟩
  intro hdead
  unfold validate_and_save_piece stop_saving discard_send_result mpsc_send
  rw [hdead]
  exact ⟨rfl, rfl⟩

/-- Claim C10 witness: the sender operations on a channel whose receiver
is gone. -/
theorem c10_sender_ops_never_fail_witness :
    validate_and_save_piece { receiver_alive := false, queue := [] } 7 [1, 2] =
      .ok { receiver_alive := false, queue := [] } ∧
    stop_saving { receiver_alive := false, queue := [] } =
      .ok { receiver_alive := false, queue := [] } :=
  (c10_sender_ops_never_fail { receiver_alive := false, queue := [] } 7 [1, 2]).2.2 rfl

end Spec2Proof
